import Mathlib

/-!
Shallow embedding of `src/main.py` (FastAPI web-search utility).

The handler `search` (main.py lines 75-221) is embedded as `searchRun`.
External collaborators (the HTTP page fetches together with the
BeautifulSoup extraction, the Brave search call, and the Gemini
text-generation call) are abstracted as oracle functions in `Env`;
everything the handler itself computes (validation, truthiness branching,
credential resolution, candidate capping, gather, filtering, error
translation) is embedded faithfully from the Python source.

Concurrency is modelled by a `sched : List Nat` completion order: the
per-URL tasks write their outcomes into result slots in completion order
(`asyncio.gather` keeps the slot of each task at the task's launch index),
and a schedule in which every launched task finishes is `completeSched`.

The anchor-rewriting part of the extraction (main.py lines 93-108) is
embedded separately as pure string functions (`resolveHref`,
`rewriteAnchorText`, ...), since the rest of the pipeline only sees the
extracted `(title, text)` pair.
-/

namespace WebSearch

/-- Python `str.split(sep)` for a single-character separator, on char lists. -/
def splitCharList (sep : Char) : List Char → List (List Char)
  | [] => [[]]
  | c :: cs =>
      if c = sep then [] :: splitCharList sep cs
      else (c :: (splitCharList sep cs).headI) :: (splitCharList sep cs).tail

/-- Python `s.split(sep)` for a single-character separator. -/
def pySplit (sep : Char) (s : String) : List String :=
  (splitCharList sep s.toList).map (fun cs => String.mk cs)

/-- Python `sep.join(xs)`. -/
def pyJoin (sep : String) : List String → String
  | [] => ""
  | [x] => x
  | x :: y :: xs => x ++ sep ++ pyJoin sep (y :: xs)

/-- Python `s.strip()`: drop leading and trailing whitespace. -/
def pyStrip (s : String) : String :=
  String.mk (((s.toList.dropWhile Char.isWhitespace).reverse.dropWhile Char.isWhitespace).reverse)

/-- Python `s.startswith(pre)`. -/
def pyStartsWith (s pre : String) : Bool :=
  pre.toList.isPrefixOf s.toList

/-- Python truthiness of an optional string: `None` and `""` are falsy. -/
def truthy : Option String → Bool
  | none => false
  | some s => s ≠ ""

/-- Python `a or b` on optional strings: `a` unless `a` is falsy. -/
def pyOr (a b : Option String) : Option String :=
  if truthy a then a else b

/-- main.py line 100: `base_url = "/".join(url.split("/")[:3])`. -/
def base_url (url : String) : String :=
  pyJoin "/" ((pySplit '/' url).take 3)

/-- main.py lines 96-101: resolve an href that starts with `/` against the
page URL; a protocol-relative `//...` href gets the `https:` scheme. -/
def resolveHref (url href : String) : String :=
  if pyStartsWith href "/" then
    if pyStartsWith href "//" then "https:" ++ href
    else base_url url ++ href
  else href

/-- main.py line 107: `re.sub(r"^https?://", "", href)`. -/
def cleanHref (href : String) : String :=
  if pyStartsWith href "https://" then String.mk (href.toList.drop 8)
  else if pyStartsWith href "http://" then String.mk (href.toList.drop 7)
  else href

/-- main.py lines 103-105: the anchor's visible text, defaulting to `"Link"`. -/
def anchorLabel (linkText : String) : String :=
  if linkText = "" then "Link" else linkText

/-- main.py lines 93-108: the string written into the anchor,
`f"{link_text} ({cleaned_href})"` after href resolution. -/
def rewriteAnchorText (url href linkText : String) : String :=
  anchorLabel linkText ++ " (" ++ cleanHref (resolveHref url href) ++ ")"

/-- main.py lines 25-43: the prompt sent to the text-generation collaborator. -/
def get_prompt (text query : String) : String :=
  "\n        You are a machine that takes in text of a webpage and\n" ++
  "        if the search query is relevant to the page,\n" ++
  "            returns a comprehensive yet focussed version of the page containing all the relevant information.\n" ++
  "        if the search query is not relevant to the page,\n" ++
  "            returns \"NOT RELEVANT\" and nothing else.\n\n" ++
  "        YOU MUST NOT ADD YOUR OWN DIALOGUES.\n" ++
  "        YOU MUST RETAIN URLS AS IT IS.\n" ++
  "        YOU MUST BE CONCISE YET PRECISE.\n" ++
  "        YOU MUST OUTPUT IN PROPERLY FORMATTED MARKDOWN.\n\n" ++
  "        SEARCH QUERY:\n        " ++ query ++ "\n\n" ++
  "        WEBPAGE TEXT:\n        " ++ text ++ "\n    "

/-- The validated request body (main.py lines 53-62, `SearchRequest`):
`q` is a required string, `url` is optional with default `None`,
`search_context` defaults to `""`, `n` defaults to 3 with `ge=1, le=15`. -/
structure SearchRequest where
  q : String
  url : Option String
  search_context : String
  n : Int
deriving Repr, DecidableEq

/-- One page record (main.py lines 65-68, `PageResult`). -/
structure PageResult where
  url : String
  page_title : String
  page_contents : String
deriving Repr, DecidableEq

/-- The response body (main.py lines 71-72, `SearchResponse`). -/
structure SearchResponse where
  results : List PageResult
deriving Repr, DecidableEq

/-- An HTTP error response (FastAPI `HTTPException`, or the 422 produced by
request-body validation). -/
structure HErr where
  status : Nat
  detail : String
deriving Repr, DecidableEq

/-- A raw inbound JSON body: each field is `none` when absent.
(`url` has default `None`, so an absent field and an explicit `null`
coincide; for `q` absence is a validation error.) -/
structure RawRequest where
  q : Option String
  url : Option String
  search_context : Option String
  n : Option Int
deriving Repr, DecidableEq

/-- Pydantic validation of the request body: `q` is required (no default in
main.py line 54), `search_context` defaults to `""`, `n` defaults to 3 and
must satisfy `ge=1, le=15`; failures are a 422 before the handler runs. -/
def parseRequest (raw : RawRequest) : Except HErr SearchRequest :=
  match raw.q with
  | none => .error ⟨422, "Field required: q"⟩
  | some q =>
      let n := raw.n.getD 3
      if n < 1 ∨ 15 < n then .error ⟨422, "Input should be less than or equal to 15 and greater than or equal to 1: n"⟩
      else .ok ⟨q, raw.url, raw.search_context.getD "", n⟩

/-- Outcome of one `client.get(url, ...)` + BeautifulSoup extraction
(main.py lines 83-126): either any exception (timeout, non-2xx via
`raise_for_status`, connection error, parse error), or the extracted
page title and flattened text. -/
inductive FetchOutcome
  | failure
  | page (title text : String)
deriving Repr, DecidableEq

/-- Outcome of one `model.ainvoke(prompt)` call (main.py line 132):
an exception, or a completion text (`response.content`). -/
inductive DistillOutcome
  | failure
  | success (s : String)
deriving Repr, DecidableEq

/-- Outcome of the Brave search GET (main.py lines 186-197):
a non-2xx status (raised as `httpx.HTTPStatusError`), another exception,
or a JSON body whose `web.results` url list is `some urls`
(`none` when the shape is missing/malformed). -/
inductive BraveOutcome
  | httpError (status : Nat) (text : String)
  | otherError (msg : String)
  | ok (results : Option (List String))
deriving Repr, DecidableEq

/-- One outbound network call made by the handler. -/
inductive OutCall
  | brave (q : String) (n : Int)
  | page (url : String)
  | gemini
deriving Repr, DecidableEq

/-- Process configuration and collaborator behaviours for one request:
the two environment keys (main.py lines 15-16) and the outcomes of the
three kinds of outbound calls, as oracle functions. -/
structure Env where
  braveKey : Option String
  geminiKey : Option String
  fetchPage : String → FetchOutcome
  braveSearch : String → String → Int → BraveOutcome
  distill : String → DistillOutcome

/-- main.py lines 79-143, `fetch_url_content`: fetch one URL, extract, and
optionally distill; any exception in fetch/extraction yields `none`; a
distillation failure or empty completion keeps the extracted text.
Also returns the outbound calls this run makes. -/
def fetch_url_content (env : Env) (body : SearchRequest) (url : String) :
    Option PageResult × List OutCall :=
  match env.fetchPage url with
  | .failure => (none, [OutCall.page url])
  | .page title text =>
      if truthy env.geminiKey then
        let prompt := get_prompt text (body.q ++ "\n" ++ body.search_context)
        match env.distill prompt with
        | .failure => (some ⟨url, title, text⟩, [OutCall.page url, OutCall.gemini])
        | .success s =>
            (some ⟨url, title, if s = "" then text else s⟩,
             [OutCall.page url, OutCall.gemini])
      else (some ⟨url, title, text⟩, [OutCall.page url])

/-- main.py lines 145-159: the direct-URL branch. A pipeline failure raises
`HTTPException(404, f"Unable to fetch content from URL: {body.url}")`, but
that raise sits inside the same `try` whose `except Exception` re-raises
`HTTPException(500, f"Error fetching URL: {str(e)}")`; Starlette's
`HTTPException.__str__` is `f"{self.status_code}: {self.detail}"`, so the
request actually fails with status 500. -/
def directPath (env : Env) (body : SearchRequest) (u : String) :
    Except HErr SearchResponse × List OutCall :=
  match fetch_url_content env body u with
  | (some r, calls) => (.ok ⟨[r]⟩, calls)
  | (none, calls) =>
      (.error ⟨500, "Error fetching URL: " ++ ("404: " ++ ("Unable to fetch content from URL: " ++ u))⟩,
       calls)

/-- One completion step: the task at launch index `i` finishes and its
outcome is written into slot `i` (as `asyncio.gather` does). -/
def runSched (tasks : List α) : List Nat → List (Option α) → List (Option α)
  | [], slots => slots
  | i :: rest, slots => runSched tasks rest (slots.set i tasks[i]?)

/-- `asyncio.gather`: slots indexed by launch position, filled in completion
order `sched`. -/
def gather (tasks : List α) (sched : List Nat) : List (Option α) :=
  runSched tasks sched (List.replicate tasks.length none)

/-- A completion order in which every launched task finishes. -/
def completeSched (len : Nat) (sched : List Nat) : Prop :=
  ∀ i, i < len → i ∈ sched

instance (len : Nat) (sched : List Nat) : Decidable (completeSched len sched) :=
  Nat.decidableBallLT len (fun i _ => i ∈ sched)

/-- main.py line 208 success filter: Python truthiness of
`result.page_contents.strip()` — keep a record iff its stripped content is
non-empty. -/
def keepResult (r : PageResult) : Bool :=
  pyStrip r.page_contents ≠ ""

/-- main.py lines 161-221: the search branch (entered when `body.url` is
falsy): `q`-presence check, credential resolution, Brave call, candidate
capping at `n`, concurrent per-URL pipelines, and the success filter
`result is not None and result.page_contents.strip()`. -/
def searchPath (env : Env) (sched : List Nat) (body : SearchRequest)
    (headerKey : Option String) : Except HErr SearchResponse × List OutCall :=
  if body.q = "" then
    (.error ⟨400, "Either 'url' or 'q' parameter must be provided"⟩, [])
  else
    match pyOr headerKey env.braveKey with
    | none => (.error ⟨403, "Brave Search API key is needed.X-Brave-Search-API-Key header."⟩, [])
    | some key =>
      if key = "" then
        (.error ⟨403, "Brave Search API key is needed.X-Brave-Search-API-Key header."⟩, [])
      else
        match env.braveSearch key body.q body.n with
        | .httpError s t =>
            (.error ⟨s, "Error from Brave Search API: " ++ t⟩, [OutCall.brave body.q body.n])
        | .otherError m =>
            (.error ⟨500, "Error during search: " ++ m⟩, [OutCall.brave body.q body.n])
        | .ok rsOpt =>
            let urls := (rsOpt.getD []).take body.n.toNat
            if urls = [] then (.ok ⟨[]⟩, [OutCall.brave body.q body.n])
            else
              let runs := urls.map (fetch_url_content env body)
              let tasks := runs.map Prod.fst
              let calls := OutCall.brave body.q body.n :: (runs.map Prod.snd).flatten
              let results_with_none := (gather tasks sched).map Option.join
              let results := (results_with_none.filterMap id).filter keepResult
              (.ok ⟨results⟩, calls)

/-- main.py lines 75-221, the whole `search` handler including request-body
validation: validation happens before the handler body; `if body.url:` is
Python truthiness, so an empty-string `url` falls through to the search
branch. Returns the response-or-error and the outbound calls made. -/
def searchRun (env : Env) (sched : List Nat) (raw : RawRequest)
    (headerKey : Option String) : Except HErr SearchResponse × List OutCall :=
  match parseRequest raw with
  | .error e => (.error e, [])
  | .ok body =>
      match body.url with
      | some u => if u = "" then searchPath env sched body headerKey else directPath env body u
      | none => searchPath env sched body headerKey

/-- The fate of one candidate URL, determined by its own pipeline run alone:
its record if fetch/extraction succeeded and the final content is not
whitespace-only, otherwise `none`. -/
def keepGood (env : Env) (body : SearchRequest) (u : String) : Option PageResult :=
  match (fetch_url_content env body u).1 with
  | none => none
  | some r => if keepResult r then some r else none

theorem runSched_length (tasks : List α) (sched : List Nat) (slots : List (Option α)) :
    (runSched tasks sched slots).length = slots.length := by
  induction sched generalizing slots with
  | nil => rfl
  | cons i rest ih => simp [runSched, ih]

theorem runSched_getElem? (tasks : List α) (sched : List Nat) (slots : List (Option α))
    (j : Nat) (hlen : slots.length = tasks.length) :
    (runSched tasks sched slots)[j]? =
      if j ∈ sched ∧ j < tasks.length then some tasks[j]? else slots[j]? := by
  induction sched generalizing slots with
  | nil => simp [runSched]
  | cons i rest ih =>
      rw [runSched, ih _ (by simp [hlen])]
      by_cases hr : j ∈ rest ∧ j < tasks.length
      · simp [hr]
      · by_cases hij : j = i
        · subst hij
          by_cases hjl : j < tasks.length
          · simp [hr, hjl, List.getElem?_set_self (by rw [hlen]; exact hjl)]
          · rw [if_neg hr, if_neg (by simp [hjl]),
              List.getElem?_eq_none (by simp [hlen]; omega),
              List.getElem?_eq_none (by rw [hlen]; omega)]
        · have hcond : ¬(j ∈ i :: rest ∧ j < tasks.length) := by
            rintro ⟨hmem, hlt⟩
            rcases List.mem_cons.mp hmem with h1 | h1
            · exact hij h1
            · exact hr ⟨h1, hlt⟩
          rw [if_neg hr, List.getElem?_set_ne (fun h => hij h.symm), if_neg hcond]

theorem gather_complete (tasks : List α) (sched : List Nat)
    (h : completeSched tasks.length sched) :
    gather tasks sched = tasks.map some := by
  apply List.ext_getElem?
  intro j
  rw [gather, runSched_getElem? _ _ _ _ (by simp)]
  by_cases hj : j < tasks.length
  · simp [h j hj, hj, List.getElem?_eq_getElem hj]
  · rw [if_neg (by simp [hj]), List.getElem?_eq_none (by simp; omega),
      List.getElem?_eq_none (by simp; omega)]

theorem filterMap_keepGood (env : Env) (body : SearchRequest) (urls : List String) :
    ((urls.map (fun u => (fetch_url_content env body u).1)).filterMap id).filter keepResult
      = urls.filterMap (keepGood env body) := by
  induction urls with
  | nil => rfl
  | cons u us ih =>
      rw [List.map_cons, List.filterMap_cons, List.filterMap_cons]
      simp only [id_eq]
      cases hfetch : (fetch_url_content env body u).1 with
      | none =>
          rw [show keepGood env body u = none by unfold keepGood; rw [hfetch]]
          exact ih
      | some r =>
          rw [List.filter_cons]
          by_cases hk : keepResult r
          · rw [show keepGood env body u = some r by
              unfold keepGood; rw [hfetch]; exact if_pos hk]
            rw [if_pos hk, ih]
          · rw [show keepGood env body u = none by
              unfold keepGood; rw [hfetch]; exact if_neg hk]
            rw [if_neg hk, ih]

/-- Every record `fetch_url_content` returns carries the URL it was asked to
fetch (main.py line 140: `PageResult(url=url, ...)`). -/
theorem fetch_url_content_url (env : Env) (body : SearchRequest) (u : String)
    (r : PageResult) (h : (fetch_url_content env body u).1 = some r) : r.url = u := by
  unfold fetch_url_content at h
  cases henv : env.fetchPage u with
  | failure => rw [henv] at h; cases h
  | page title text =>
      rw [henv] at h
      dsimp only at h
      by_cases hg : truthy env.geminiKey
      · rw [if_pos hg] at h
        cases hd : env.distill (get_prompt text (body.q ++ "\n" ++ body.search_context)) with
        | failure =>
            rw [hd] at h
            dsimp only at h
            injection h with h'
            subst h'
            rfl
        | success s =>
            rw [hd] at h
            dsimp only at h
            injection h with h'
            subst h'
            rfl
      · rw [if_neg hg] at h
        dsimp only at h
        injection h with h'
        subst h'
        rfl

/-- Every record `keepGood` promotes carries the URL it was fetched from. -/
theorem keepGood_url (env : Env) (body : SearchRequest) (u : String) (r : PageResult)
    (h : keepGood env body u = some r) : r.url = u := by
  unfold keepGood at h
  cases hfetch : (fetch_url_content env body u).1 with
  | none => rw [hfetch] at h; cases h
  | some r0 =>
      rw [hfetch] at h
      dsimp only at h
      by_cases hk : keepResult r0
      · rw [if_pos hk] at h
        injection h with h'
        subst h'
        exact fetch_url_content_url env body u r0 hfetch
      · rw [if_neg hk] at h
        cases h

theorem filterMap_url_sublist (g : String → Option PageResult)
    (hg : ∀ u r, g u = some r → r.url = u) (urls : List String) :
    ((urls.filterMap g).map PageResult.url).Sublist urls := by
  induction urls with
  | nil => simp
  | cons u us ih =>
      rw [List.filterMap_cons]
      cases hgu : g u with
      | none => exact ih.cons u
      | some r => rw [List.map_cons, hg u r hgu]; exact ih.cons₂ u

/-- Central lemma: once the search branch reaches a successful Brave call and
all launched fetches complete, the response is exactly the candidate-order
`filterMap` of per-URL fates, independent of the completion order. -/
theorem searchPath_ok (env : Env) (sched : List Nat) (body : SearchRequest)
    (hdr : Option String) (key : String) (rs : List String)
    (hq : body.q ≠ "")
    (hkey : pyOr hdr env.braveKey = some key) (hk : key ≠ "")
    (hbr : env.braveSearch key body.q body.n = .ok (some rs))
    (hsched : completeSched (rs.take body.n.toNat).length sched) :
    searchPath env sched body hdr =
      (.ok ⟨(rs.take body.n.toNat).filterMap (keepGood env body)⟩,
       OutCall.brave body.q body.n ::
         ((rs.take body.n.toNat).map (fun u => (fetch_url_content env body u).2)).flatten) := by
  have hjoinsome : ∀ (l : List (Option PageResult)), (l.map some).map Option.join = l := by
    intro l
    induction l with
    | nil => rfl
    | cons a t iht => rw [List.map_cons, List.map_cons, iht]; rfl
  unfold searchPath
  rw [if_neg hq, hkey]
  dsimp only
  rw [if_neg hk, hbr]
  dsimp only
  rw [Option.getD_some]
  by_cases hurls : (rs.take body.n.toNat) = []
  · rw [if_pos hurls, hurls]
    rfl
  · rw [if_neg hurls]
    rw [show ((rs.take body.n.toNat).map (fetch_url_content env body)).map Prod.fst
        = (rs.take body.n.toNat).map (fun u => (fetch_url_content env body u).1) by
      rw [List.map_map]; rfl]
    rw [gather_complete _ _ (by simpa using hsched)]
    rw [hjoinsome, filterMap_keepGood]
    rw [show ((rs.take body.n.toNat).map (fetch_url_content env body)).map Prod.snd
        = (rs.take body.n.toNat).map (fun u => (fetch_url_content env body u).2) by
      rw [List.map_map]; rfl]

/-- Dispatch: a parsed body with a non-empty (truthy) `url` takes the
direct-URL branch (main.py line 145 `if body.url:`). -/
theorem searchRun_direct (env : Env) (sched : List Nat) (raw : RawRequest)
    (hdr : Option String) (body : SearchRequest) (u : String)
    (hp : parseRequest raw = .ok body) (hu : body.url = some u) (hne : u ≠ "") :
    searchRun env sched raw hdr = directPath env body u := by
  unfold searchRun
  rw [hp]
  dsimp only
  rw [hu]
  dsimp only
  rw [if_neg hne]

/-- Dispatch: a parsed body whose `url` is absent or empty (falsy) takes the
search branch. -/
theorem searchRun_searchMode (env : Env) (sched : List Nat) (raw : RawRequest)
    (hdr : Option String) (body : SearchRequest)
    (hp : parseRequest raw = .ok body) (hu : body.url = none ∨ body.url = some "") :
    searchRun env sched raw hdr = searchPath env sched body hdr := by
  unfold searchRun
  rw [hp]
  dsimp only
  rcases hu with hu | hu
  · rw [hu]
  · rw [hu]
    dsimp only
    rw [if_pos rfl]

/-- A successfully parsed body satisfies the pydantic range bounds on `n`. -/
theorem parseRequest_n_range (raw : RawRequest) (body : SearchRequest)
    (hp : parseRequest raw = .ok body) : 1 ≤ body.n ∧ body.n ≤ 15 := by
  unfold parseRequest at hp
  cases hq : raw.q with
  | none => rw [hq] at hp; cases hp
  | some q =>
      rw [hq] at hp
      dsimp only at hp
      by_cases hn : (raw.n.getD 3) < 1 ∨ 15 < (raw.n.getD 3)
      · rw [if_pos hn] at hp; cases hp
      · rw [if_neg hn] at hp
        injection hp with h'
        subst h'
        dsimp only
        omega

/-- Validation only checks and defaults: the parsed fields come verbatim from
the raw request. -/
theorem parseRequest_fields (raw : RawRequest) (body : SearchRequest)
    (hp : parseRequest raw = .ok body) :
    raw.q = some body.q ∧ body.url = raw.url ∧
      body.search_context = raw.search_context.getD "" ∧ body.n = raw.n.getD 3 := by
  unfold parseRequest at hp
  cases hq : raw.q with
  | none => rw [hq] at hp; cases hp
  | some q =>
      rw [hq] at hp
      dsimp only at hp
      by_cases hn : (raw.n.getD 3) < 1 ∨ 15 < (raw.n.getD 3)
      · rw [if_pos hn] at hp; cases hp
      · rw [if_neg hn] at hp
        injection hp with h'
        subst h'
        exact ⟨rfl, rfl, rfl, rfl⟩

/-- The per-URL pipeline reads only `q` and `search_context` from the body. -/
theorem fetch_url_content_body_congr (env : Env) (b₁ b₂ : SearchRequest) (u : String)
    (hq : b₁.q = b₂.q) (hc : b₁.search_context = b₂.search_context) :
    fetch_url_content env b₁ u = fetch_url_content env b₂ u := by
  unfold fetch_url_content
  rw [hq, hc]

/-- The per-URL pipeline depends on the environment only through its own
fetch outcome, the Gemini flag, and the distillation oracle. -/
theorem fetch_url_content_env_congr (env₁ env₂ : Env) (body : SearchRequest) (u : String)
    (hf : env₂.fetchPage u = env₁.fetchPage u) (hg : env₂.geminiKey = env₁.geminiKey)
    (hd : env₂.distill = env₁.distill) :
    fetch_url_content env₂ body u = fetch_url_content env₁ body u := by
  unfold fetch_url_content
  rw [hf, hg, hd]

/-- One pipeline run makes its page GET and at most a Gemini call — never a
Brave search call. -/
theorem fetch_url_content_calls (env : Env) (body : SearchRequest) (u : String) :
    (fetch_url_content env body u).2 = [OutCall.page u] ∨
    (fetch_url_content env body u).2 = [OutCall.page u, OutCall.gemini] := by
  unfold fetch_url_content
  cases env.fetchPage u with
  | failure => left; rfl
  | page title text =>
      dsimp only
      by_cases hg : truthy env.geminiKey
      · rw [if_pos hg]
        cases env.distill (get_prompt text (body.q ++ "\n" ++ body.search_context)) with
        | failure => right; rfl
        | success s => right; rfl
      · rw [if_neg hg]
        left
        rfl

/-- The direct branch's outbound calls are exactly its single pipeline run's. -/
theorem directPath_calls (env : Env) (body : SearchRequest) (u : String) :
    (directPath env body u).2 = (fetch_url_content env body u).2 := by
  unfold directPath
  cases hf : fetch_url_content env body u with
  | mk fst snd => cases fst <;> rfl

/-- A successful direct-branch response holds exactly one record. -/
theorem directPath_ok_length (env : Env) (body : SearchRequest) (u : String)
    (resp : SearchResponse) (h : (directPath env body u).1 = .ok resp) :
    resp.results.length ≤ 1 := by
  unfold directPath at h
  cases hf : fetch_url_content env body u with
  | mk fst snd =>
      rw [hf] at h
      cases fst with
      | none => cases h
      | some r =>
          dsimp only at h
          injection h with h'
          subst h'
          rfl

/-- Records promoted by `keepGood` pass the non-whitespace content filter. -/
theorem keepGood_keepResult (env : Env) (body : SearchRequest) (u : String)
    (r : PageResult) (h : keepGood env body u = some r) : keepResult r := by
  unfold keepGood at h
  cases hfetch : (fetch_url_content env body u).1 with
  | none => rw [hfetch] at h; cases h
  | some r0 =>
      rw [hfetch] at h
      dsimp only at h
      by_cases hk : keepResult r0
      · rw [if_pos hk] at h
        injection h with h'
        subst h'
        exact hk
      · rw [if_neg hk] at h
        cases h

theorem splitCharList_ne_nil (sep : Char) (l : List Char) : splitCharList sep l ≠ [] := by
  cases l with
  | nil => simp [splitCharList]
  | cons c cs =>
      unfold splitCharList
      by_cases h : c = sep
      · rw [if_pos h]; simp
      · rw [if_neg h]; simp

theorem splitCharList_sep_cons (sep : Char) (ys : List Char) :
    splitCharList sep (sep :: ys) = [] :: splitCharList sep ys := by
  conv_lhs => rw [splitCharList]
  rw [if_pos rfl]

theorem splitCharList_append_no_sep (sep : Char) (xs ys : List Char) (h : sep ∉ xs) :
    splitCharList sep (xs ++ ys) =
      (xs ++ (splitCharList sep ys).headI) :: (splitCharList sep ys).tail := by
  induction xs with
  | nil =>
      rw [List.nil_append, List.nil_append]
      cases hys : splitCharList sep ys with
      | nil => exact absurd hys (splitCharList_ne_nil sep ys)
      | cons g gs => rfl
  | cons x xs ih =>
      have hx : x ≠ sep := by
        intro hh
        exact h (hh ▸ List.mem_cons_self x xs)
      have h' : sep ∉ xs := fun hh => h (List.mem_cons_of_mem x hh)
      rw [List.cons_append]
      conv_lhs => rw [splitCharList]
      rw [if_neg hx, ih h']
      rfl

/-- main.py line 100 on a well-formed absolute URL: `base_url` is exactly the
scheme plus host of the page URL. -/
theorem base_url_scheme_host (scheme host rest : String)
    (hs : ('/' : Char) ∉ scheme.data) (hh : ('/' : Char) ∉ host.data) :
    base_url (scheme ++ "://" ++ host ++ "/" ++ rest) = scheme ++ "://" ++ host := by
  unfold base_url pySplit
  have hdata : (scheme ++ "://" ++ host ++ "/" ++ rest).toList
      = (scheme.data ++ [':']) ++ ('/' :: ('/' :: (host.data ++ ('/' :: rest.data)))) := by
    simp [String.toList]
  rw [hdata]
  rw [splitCharList_append_no_sep _ _ _ (by
      intro hmem
      rcases List.mem_append.mp hmem with h1 | h1
      · exact hs h1
      · simp at h1)]
  rw [splitCharList_sep_cons, splitCharList_sep_cons]
  rw [splitCharList_append_no_sep _ _ _ hh]
  rw [splitCharList_sep_cons]
  apply String.ext
  simp [pyJoin, String.toList]

theorem isPrefixOf_head {α} [BEq α] (a : α) (xs l : List α)
    (h : List.isPrefixOf (a :: xs) l = true) : List.isPrefixOf [a] l = true := by
  cases l with
  | nil => simp [List.isPrefixOf] at h
  | cons b bs =>
      simp [List.isPrefixOf] at h ⊢
      exact h.1

/-- A href starting with `//` also starts with `/` (so the outer branch of
main.py line 96 is taken). -/
theorem pyStartsWith_slash (href : String) (h : pyStartsWith href "//" = true) :
    pyStartsWith href "/" = true :=
  isPrefixOf_head '/' ['/'] href.toList h

theorem resolveHref_protocol_relative (url href : String)
    (h : pyStartsWith href "//" = true) : resolveHref url href = "https:" ++ href := by
  unfold resolveHref
  rw [if_pos (pyStartsWith_slash href h), if_pos h]

theorem resolveHref_root_relative (url href : String)
    (h1 : pyStartsWith href "/" = true) (h2 : pyStartsWith href "//" = false) :
    resolveHref url href = base_url url ++ href := by
  unfold resolveHref
  rw [if_pos h1, if_neg (by simp [h2])]

theorem cleanHref_https (s : String) : cleanHref ("https://" ++ s) = s := by
  unfold cleanHref
  rw [if_pos (by
    unfold pyStartsWith
    rw [show ("https://" ++ s).toList = "https://".toList ++ s.toList from rfl]
    simp)]
  rw [show ("https://" ++ s).toList = "https://".toList ++ s.toList from rfl]
  rw [List.drop_left' (by rfl)]
  rfl

theorem cleanHref_http (s : String) : cleanHref ("http://" ++ s) = s := by
  have hneg : pyStartsWith ("http://" ++ s) "https://" = false := by
    unfold pyStartsWith
    rw [show ("http://" ++ s).toList = "http://".toList ++ s.toList from rfl]
    simp [List.cons_prefix_cons]
    rw [List.isPrefixOf_cons₂]
    rw [show (('s' == ':') : Bool) = false from rfl]
    rfl
  unfold cleanHref
  rw [if_neg (by simp [hneg])]
  rw [if_pos (by
    unfold pyStartsWith
    rw [show ("http://" ++ s).toList = "http://".toList ++ s.toList from rfl]
    simp)]
  rw [show ("http://" ++ s).toList = "http://".toList ++ s.toList from rfl]
  rw [List.drop_left' (by rfl)]
  rfl

/-- The direct branch reads only `q` and `search_context` from the body. -/
theorem directPath_body_congr (env : Env) (b₁ b₂ : SearchRequest) (u : String)
    (hq : b₁.q = b₂.q) (hc : b₁.search_context = b₂.search_context) :
    directPath env b₁ u = directPath env b₂ u := by
  unfold directPath
  rw [fetch_url_content_body_congr env b₁ b₂ u hq hc]

/-! ## Claims -/

/-- C1: when the direct-URL pipeline fails, the spec says the request fails
with HTTP 404 naming the URL. The code raises that 404 `HTTPException`
inside the same `try` whose blanket `except Exception` re-raises it as
HTTP 500 (main.py lines 147-159), so the observable response at a failing
input is a 500 whose detail embeds the 404 message. This theorem evaluates
the handler at such a failing input. -/
theorem c1_direct_failure_yields_500 :
    searchRun
      { braveKey := some "K", geminiKey := none,
        fetchPage := fun _ => .failure,
        braveSearch := fun _ _ _ => .ok none, distill := fun _ => .failure }
      [] ⟨some "x", some "https://unreachable.invalid", none, none⟩ none =
    (.error ⟨500,
        "Error fetching URL: 404: Unable to fetch content from URL: https://unreachable.invalid"⟩,
     [OutCall.page "https://unreachable.invalid"]) := rfl

/-- C2 counterexample: the claim says `q` is optional when a direct URL is
given, but `q` has no default in the request schema (main.py line 54), so a
request supplying only `url` — here a perfectly fetchable one — is rejected
by validation with a 422 and never reaches the direct-URL path. -/
theorem c2_counterexample :
    searchRun
      { braveKey := some "K", geminiKey := none,
        fetchPage := fun _ => .page "Example" "hello world",
        braveSearch := fun _ _ _ => .ok (some []), distill := fun _ => .failure }
      [] ⟨none, some "http://example.com", none, none⟩ none
      = (.error ⟨422, "Field required: q"⟩, []) := rfl

/-- C2 (amended): `q` is required by the schema even when `url` is given,
but it may be the empty string: a request with `q = ""` and a non-empty
`url` passes validation and is served by the direct-URL path. -/
theorem c2_empty_q_with_url_accepted (env : Env) (sched : List Nat)
    (hdr : Option String) (u : String) (sc : Option String) (hu : u ≠ "") :
    parseRequest ⟨some "", some u, sc, none⟩ = .ok ⟨"", some u, sc.getD "", 3⟩ ∧
    searchRun env sched ⟨some "", some u, sc, none⟩ hdr
      = directPath env ⟨"", some u, sc.getD "", 3⟩ u := by
  have hp : parseRequest ⟨some "", some u, sc, none⟩ = .ok ⟨"", some u, sc.getD "", 3⟩ := by
    unfold parseRequest
    dsimp only
    simp only [Option.getD_none]
    rw [if_neg (by omega)]
  exact ⟨hp, searchRun_direct env sched _ hdr _ u hp rfl hu⟩

/-- C2 amended-claim witness at a concrete request. -/
theorem c2_witness :
    parseRequest ⟨some "", some "http://example.com", none, none⟩
      = .ok ⟨"", some "http://example.com", none.getD "", 3⟩ ∧
    searchRun
      { braveKey := none, geminiKey := none,
        fetchPage := fun _ => .page "Example" "hello world",
        braveSearch := fun _ _ _ => .ok none, distill := fun _ => .failure }
      [] ⟨some "", some "http://example.com", none, none⟩ none
      = directPath
          { braveKey := none, geminiKey := none,
            fetchPage := fun _ => .page "Example" "hello world",
            braveSearch := fun _ _ _ => .ok none, distill := fun _ => .failure }
          ⟨"", some "http://example.com", none.getD "", 3⟩ "http://example.com" :=
  c2_empty_q_with_url_accepted _ [] none "http://example.com" none (by decide)

/-- C3 counterexample: the claim asserts non-empty content for records in
both modes, but the direct-URL branch applies no content filter (main.py
lines 145-150): a page whose extracted text is empty is returned as a
record with empty `page_contents` in a successful response. -/
theorem c3_counterexample :
    searchRun
      { braveKey := none, geminiKey := none,
        fetchPage := fun _ => .page "Empty Page" "",
        braveSearch := fun _ _ _ => .ok none, distill := fun _ => .failure }
      [] ⟨some "x", some "http://example.com/empty", none, none⟩ none
      = (.ok ⟨[⟨"http://example.com/empty", "Empty Page", ""⟩]⟩,
         [OutCall.page "http://example.com/empty"]) ∧
    pyStrip "" = "" :=
  ⟨rfl, rfl⟩

/-- C3 (amended): the non-empty-content invariant holds for the search mode
only, where main.py line 208 filters out records whose stripped content is
empty; the direct-URL mode may return a whitespace-only record. -/
theorem c3_search_mode_content_nonempty (env : Env) (sched : List Nat)
    (raw : RawRequest) (hdr : Option String) (body : SearchRequest) (key : String)
    (rs : List String) (resp : SearchResponse)
    (hp : parseRequest raw = .ok body)
    (hu : body.url = none ∨ body.url = some "")
    (hq : body.q ≠ "")
    (hkey : pyOr hdr env.braveKey = some key) (hk : key ≠ "")
    (hbr : env.braveSearch key body.q body.n = .ok (some rs))
    (hsched : completeSched (rs.take body.n.toNat).length sched)
    (hres : (searchRun env sched raw hdr).1 = .ok resp) :
    ∀ r ∈ resp.results, pyStrip r.page_contents ≠ "" := by
  rw [searchRun_searchMode env sched raw hdr body hp hu,
    searchPath_ok env sched body hdr key rs hq hkey hk hbr hsched] at hres
  dsimp only at hres
  injection hres with h'
  subst h'
  intro r hr
  dsimp only at hr
  obtain ⟨u, _, hkg⟩ := List.mem_filterMap.mp hr
  have hkr := keepGood_keepResult env body u r hkg
  simpa [keepResult] using hkr

/-- C3 amended-claim witness: a concrete search-mode run whose single
returned record has non-whitespace content. -/
theorem c3_witness :
    pyStrip (PageResult.page_contents ⟨"http://a", "T", "hello"⟩) ≠ "" :=
  c3_search_mode_content_nonempty
    { braveKey := some "K", geminiKey := none,
      fetchPage := fun _ => .page "T" "hello",
      braveSearch := fun _ _ _ => .ok (some ["http://a"]), distill := fun _ => .failure }
    [0] ⟨some "x", none, none, some 1⟩ none ⟨"x", none, "", 1⟩ "K" ["http://a"]
    ⟨[⟨"http://a", "T", "hello"⟩]⟩ rfl (Or.inl rfl) (by decide) rfl (by decide) rfl
    (by decide) rfl ⟨"http://a", "T", "hello"⟩ (List.mem_singleton.mpr rfl)

/-- C4: in search mode, with a successfully parsed request (so `n` is in
[1,15]), the returned result list never exceeds `n` records, no matter how
many results the Brave collaborator returns (main.py line 196 takes `[:n]`,
line 205 only filters). -/
theorem c4_resultset_length_le_n (env : Env) (sched : List Nat)
    (raw : RawRequest) (hdr : Option String) (body : SearchRequest) (key : String)
    (rs : List String) (resp : SearchResponse)
    (hp : parseRequest raw = .ok body)
    (hu : body.url = none ∨ body.url = some "")
    (hq : body.q ≠ "")
    (hkey : pyOr hdr env.braveKey = some key) (hk : key ≠ "")
    (hbr : env.braveSearch key body.q body.n = .ok (some rs))
    (hsched : completeSched (rs.take body.n.toNat).length sched)
    (hres : (searchRun env sched raw hdr).1 = .ok resp) :
    (resp.results.length : Int) ≤ body.n := by
  have hn := parseRequest_n_range raw body hp
  rw [searchRun_searchMode env sched raw hdr body hp hu,
    searchPath_ok env sched body hdr key rs hq hkey hk hbr hsched] at hres
  dsimp only at hres
  injection hres with h'
  subst h'
  dsimp only
  have h1 : ((rs.take body.n.toNat).filterMap (keepGood env body)).length
      ≤ (rs.take body.n.toNat).length := List.length_filterMap_le _ _
  have h2 : (rs.take body.n.toNat).length ≤ body.n.toNat := List.length_take_le _ _
  omega

/-- C4 witness: a concrete run where Brave returns three candidates but
`n = 2` caps the result list at two. -/
theorem c4_witness :
    ((({ results := [⟨"http://a", "T", "hello"⟩, ⟨"http://b", "T", "hello"⟩] } :
        SearchResponse).results.length : Int)) ≤ (2 : Int) :=
  c4_resultset_length_le_n
    { braveKey := some "K", geminiKey := none,
      fetchPage := fun _ => .page "T" "hello",
      braveSearch := fun _ _ _ => .ok (some ["http://a", "http://b", "http://c"]),
      distill := fun _ => .failure }
    [0, 1] ⟨some "x", none, none, some 2⟩ none ⟨"x", none, "", 2⟩ "K"
    ["http://a", "http://b", "http://c"]
    ⟨[⟨"http://a", "T", "hello"⟩, ⟨"http://b", "T", "hello"⟩]⟩ rfl (Or.inl rfl)
    (by decide) rfl (by decide) rfl (by decide) rfl

/-- C5: in search mode the response is the same for any two completion
orders of the concurrent fetches, and the record order follows the Brave
candidate order: the result's URL sequence is a sublist (order-preserving
selection) of the capped candidate list. -/
theorem c5_order_matches_candidates (env : Env) (raw : RawRequest)
    (hdr : Option String) (body : SearchRequest) (key : String) (rs : List String)
    (sched₁ sched₂ : List Nat)
    (hp : parseRequest raw = .ok body)
    (hu : body.url = none ∨ body.url = some "")
    (hq : body.q ≠ "")
    (hkey : pyOr hdr env.braveKey = some key) (hk : key ≠ "")
    (hbr : env.braveSearch key body.q body.n = .ok (some rs))
    (hs₁ : completeSched (rs.take body.n.toNat).length sched₁)
    (hs₂ : completeSched (rs.take body.n.toNat).length sched₂) :
    searchRun env sched₁ raw hdr = searchRun env sched₂ raw hdr ∧
    ∀ resp, (searchRun env sched₁ raw hdr).1 = .ok resp →
      (resp.results.map PageResult.url).Sublist (rs.take body.n.toNat) := by
  rw [searchRun_searchMode env sched₁ raw hdr body hp hu,
    searchRun_searchMode env sched₂ raw hdr body hp hu,
    searchPath_ok env sched₁ body hdr key rs hq hkey hk hbr hs₁,
    searchPath_ok env sched₂ body hdr key rs hq hkey hk hbr hs₂]
  refine ⟨rfl, ?_⟩
  intro resp hres
  dsimp only at hres
  injection hres with h'
  subst h'
  dsimp only
  exact filterMap_url_sublist (keepGood env body)
    (fun u r h => keepGood_url env body u r h) (rs.take body.n.toNat)

/-- C5 witness: two staggered completion orders at a concrete request. -/
theorem c5_witness :
    searchRun
      { braveKey := some "K", geminiKey := none,
        fetchPage := fun _ => .page "T" "hello",
        braveSearch := fun _ _ _ => .ok (some ["http://a", "http://b"]),
        distill := fun _ => .failure }
      [1, 0] ⟨some "x", none, none, some 2⟩ none =
    searchRun
      { braveKey := some "K", geminiKey := none,
        fetchPage := fun _ => .page "T" "hello",
        braveSearch := fun _ _ _ => .ok (some ["http://a", "http://b"]),
        distill := fun _ => .failure }
      [0, 1] ⟨some "x", none, none, some 2⟩ none :=
  (c5_order_matches_candidates
    { braveKey := some "K", geminiKey := none,
      fetchPage := fun _ => .page "T" "hello",
      braveSearch := fun _ _ _ => .ok (some ["http://a", "http://b"]),
      distill := fun _ => .failure }
    ⟨some "x", none, none, some 2⟩ none ⟨"x", none, "", 2⟩ "K" ["http://a", "http://b"]
    [1, 0] [0, 1] rfl (Or.inl rfl) (by decide) rfl (by decide) rfl (by decide)
    (by decide)).1

/-- C6: in search mode, a fetch/extraction failure of one candidate URL only
removes that candidate's record: the request still succeeds, producing the
candidate-order collection of per-URL fates; the failing URL's fate is
`none`; and every other URL's fate is unchanged under any environment that
differs only at the failing URL's fetch outcome. The `completeSched`
hypothesis models that the gather waits for every launched run. -/
theorem c6_per_item_failure_isolated (env : Env) (sched : List Nat)
    (raw : RawRequest) (hdr : Option String) (body : SearchRequest) (key : String)
    (rs : List String) (u₀ : String)
    (hp : parseRequest raw = .ok body)
    (hu : body.url = none ∨ body.url = some "")
    (hq : body.q ≠ "")
    (hkey : pyOr hdr env.braveKey = some key) (hk : key ≠ "")
    (hbr : env.braveSearch key body.q body.n = .ok (some rs))
    (hsched : completeSched (rs.take body.n.toNat).length sched)
    (hfail : env.fetchPage u₀ = .failure) :
    (searchRun env sched raw hdr).1
        = .ok ⟨(rs.take body.n.toNat).filterMap (keepGood env body)⟩ ∧
    keepGood env body u₀ = none ∧
    (∀ env₂ : Env, env₂.geminiKey = env.geminiKey → env₂.distill = env.distill →
      (∀ u, u ≠ u₀ → env₂.fetchPage u = env.fetchPage u) →
      ∀ u, u ≠ u₀ → keepGood env₂ body u = keepGood env body u) := by
  refine ⟨?_, ?_, ?_⟩
  · rw [searchRun_searchMode env sched raw hdr body hp hu,
      searchPath_ok env sched body hdr key rs hq hkey hk hbr hsched]
  · unfold keepGood fetch_url_content
    rw [hfail]
  · intro env₂ hg hd hf u hu'
    unfold keepGood
    rw [fetch_url_content_env_congr env env₂ body u (hf u hu') hg hd]

/-- C6 witness: one of two candidates fails; the request still succeeds with
the surviving record. -/
theorem c6_witness :
    (searchRun
      { braveKey := some "K", geminiKey := none,
        fetchPage := fun u => if u = "http://bad" then .failure else .page "T" "hello",
        braveSearch := fun _ _ _ => .ok (some ["http://a", "http://bad"]),
        distill := fun _ => .failure }
      [0, 1] ⟨some "x", none, none, some 2⟩ none).1
      = .ok ⟨(["http://a", "http://bad"].take ((2 : Int)).toNat).filterMap
          (keepGood
            { braveKey := some "K", geminiKey := none,
              fetchPage := fun u => if u = "http://bad" then .failure else .page "T" "hello",
              braveSearch := fun _ _ _ => .ok (some ["http://a", "http://bad"]),
              distill := fun _ => .failure }
            ⟨"x", none, "", 2⟩)⟩ :=
  (c6_per_item_failure_isolated
    { braveKey := some "K", geminiKey := none,
      fetchPage := fun u => if u = "http://bad" then .failure else .page "T" "hello",
      braveSearch := fun _ _ _ => .ok (some ["http://a", "http://bad"]),
      distill := fun _ => .failure }
    [0, 1] ⟨some "x", none, none, some 2⟩ none ⟨"x", none, "", 2⟩ "K"
    ["http://a", "http://bad"] "http://bad" rfl (Or.inl rfl) (by decide) rfl
    (by decide) rfl (by decide) rfl).1

/-- C7: when the distillation call fails, or returns an empty completion, the
page's record keeps the extracted text unchanged, equals the record the
pipeline would produce with distillation disabled, and (in direct-URL mode)
the request still succeeds with the raw extracted text (main.py lines
128-140: inner `try` swallows the error; `if processed_text` skips empty
completions). -/
theorem c7_distill_failure_non_fatal (env : Env) (body : SearchRequest)
    (url title text : String)
    (hfetch : env.fetchPage url = .page title text)
    (hfail : env.distill (get_prompt text (body.q ++ "\n" ++ body.search_context)) = .failure ∨
        env.distill (get_prompt text (body.q ++ "\n" ++ body.search_context)) = .success "") :
    (fetch_url_content env body url).1 = some ⟨url, title, text⟩ ∧
    (fetch_url_content env body url).1
      = (fetch_url_content { env with geminiKey := none } body url).1 ∧
    (∀ sched raw hdr, parseRequest raw = .ok body → body.url = some url → url ≠ "" →
        (searchRun env sched raw hdr).1 = .ok ⟨[⟨url, title, text⟩]⟩) := by
  have h1 : (fetch_url_content env body url).1 = some ⟨url, title, text⟩ := by
    unfold fetch_url_content
    rw [hfetch]
    dsimp only
    by_cases hg : truthy env.geminiKey
    · rw [if_pos hg]
      rcases hfail with hf | hf
      · rw [hf]
      · rw [hf]
        dsimp only
        rw [if_pos rfl]
    · rw [if_neg hg]
  have h2 : (fetch_url_content { env with geminiKey := none } body url).1
      = some ⟨url, title, text⟩ := by
    unfold fetch_url_content
    rw [show ({ env with geminiKey := none } : Env).fetchPage = env.fetchPage from rfl,
      hfetch]
    rfl
  refine ⟨h1, by rw [h1, h2], ?_⟩
  intro sched raw hdr hp hu hne
  rw [searchRun_direct env sched raw hdr body url hp hu hne]
  unfold directPath
  cases hfc : fetch_url_content env body url with
  | mk fst snd =>
      rw [hfc] at h1
      dsimp only at h1
      subst h1
      rfl

/-- C7 witness: a concrete page whose distillation call fails. -/
theorem c7_witness :
    (fetch_url_content
      { braveKey := none, geminiKey := some "G",
        fetchPage := fun _ => .page "T" "raw text",
        braveSearch := fun _ _ _ => .ok none, distill := fun _ => .failure }
      ⟨"x", some "http://a", "", 3⟩ "http://a").1
      = some ⟨"http://a", "T", "raw text"⟩ :=
  (c7_distill_failure_non_fatal
    { braveKey := none, geminiKey := some "G",
      fetchPage := fun _ => .page "T" "raw text",
      braveSearch := fun _ _ _ => .ok none, distill := fun _ => .failure }
    ⟨"x", some "http://a", "", 3⟩ "http://a" "T" "raw text" rfl (Or.inl rfl)).1

/-- C8: a request supplying neither `q` nor `url` (absent, or present but
empty — Python-falsy) is rejected with a client error (422 from schema
validation when `q` is absent, otherwise the handler's 400) and the
outbound-call trace is empty: no search-collaborator call and no page fetch
happens. -/
theorem c8_reject_before_any_io (env : Env) (sched : List Nat) (raw : RawRequest)
    (hdr : Option String)
    (hq : raw.q = none ∨ raw.q = some "")
    (hu : raw.url = none ∨ raw.url = some "") :
    ∃ e, searchRun env sched raw hdr = (.error e, []) ∧
      (e.status = 400 ∨ e.status = 422) := by
  rcases hq with hq | hq
  · refine ⟨⟨422, "Field required: q"⟩, ?_, Or.inr rfl⟩
    unfold searchRun parseRequest
    rw [hq]
  · by_cases hn : (raw.n.getD 3) < 1 ∨ 15 < (raw.n.getD 3)
    · refine ⟨⟨422, "Input should be less than or equal to 15 and greater than or equal to 1: n"⟩,
        ?_, Or.inr rfl⟩
      unfold searchRun parseRequest
      rw [hq]
      dsimp only
      rw [if_pos hn]
    · have hp : parseRequest raw = .ok ⟨"", raw.url, raw.search_context.getD "", raw.n.getD 3⟩ := by
        unfold parseRequest
        rw [hq]
        dsimp only
        rw [if_neg hn]
      refine ⟨⟨400, "Either 'url' or 'q' parameter must be provided"⟩, ?_, Or.inl rfl⟩
      rw [searchRun_searchMode env sched raw hdr _ hp hu]
      unfold searchPath
      rw [if_pos rfl]

/-- C8 witness: the fully empty request body is rejected with no outbound
calls. -/
theorem c8_witness :
    ∃ e, searchRun
        { braveKey := some "K", geminiKey := none,
          fetchPage := fun _ => .page "T" "hello",
          braveSearch := fun _ _ _ => .ok (some ["http://a"]),
          distill := fun _ => .failure }
        [] ⟨none, none, none, none⟩ none = (.error e, []) ∧
      (e.status = 400 ∨ e.status = 422) :=
  c8_reject_before_any_io _ [] ⟨none, none, none, none⟩ none (Or.inl rfl) (Or.inl rfl)

/-- C9: link rewriting (main.py lines 93-108). A protocol-relative href gets
the `https:` scheme; an href starting with a single `/` is resolved against
`base_url`, which on a well-formed absolute page URL is exactly its
scheme+host; the leading `http://`/`https://` of the resolved href is
stripped; the visible text becomes `"<text or Link> (<cleaned href>)"`; and
in particular `<a href="/foo">bar</a>` on `http://example.com/page` renders
as `bar (example.com/foo)`. -/
theorem c9_link_rewriting :
    (∀ url href linkText, pyStartsWith href "//" = true →
        rewriteAnchorText url href linkText
          = anchorLabel linkText ++ " (" ++ cleanHref ("https:" ++ href) ++ ")") ∧
    (∀ url href linkText, pyStartsWith href "/" = true → pyStartsWith href "//" = false →
        rewriteAnchorText url href linkText
          = anchorLabel linkText ++ " (" ++ cleanHref (base_url url ++ href) ++ ")") ∧
    (∀ scheme host rest, ('/' : Char) ∉ scheme.data → ('/' : Char) ∉ host.data →
        base_url (scheme ++ "://" ++ host ++ "/" ++ rest) = scheme ++ "://" ++ host) ∧
    (∀ s, cleanHref ("https://" ++ s) = s ∧ cleanHref ("http://" ++ s) = s) ∧
    (∀ url href, rewriteAnchorText url href ""
        = "Link (" ++ cleanHref (resolveHref url href) ++ ")") ∧
    (∀ url href linkText, linkText ≠ "" →
        rewriteAnchorText url href linkText
          = linkText ++ " (" ++ cleanHref (resolveHref url href) ++ ")") ∧
    rewriteAnchorText "http://example.com/page" "/foo" "bar" = "bar (example.com/foo)" := by
  refine ⟨?_, ?_, ?_, ?_, ?_, ?_, rfl⟩
  · intro url href linkText h
    unfold rewriteAnchorText
    rw [resolveHref_protocol_relative url href h]
  · intro url href linkText h1 h2
    unfold rewriteAnchorText
    rw [resolveHref_root_relative url href h1 h2]
  · exact base_url_scheme_host
  · exact fun s => ⟨cleanHref_https s, cleanHref_http s⟩
  · intro url href
    unfold rewriteAnchorText anchorLabel
    rw [if_pos rfl]
    apply String.ext
    simp [String.toList]
  · intro url href linkText h
    unfold rewriteAnchorText anchorLabel
    rw [if_neg h]

/-- C9 witness at concrete anchors: a protocol-relative href and a root
relative href on a concrete page URL. -/
theorem c9_witness :
    rewriteAnchorText "http://x.org/a" "//cdn.net/lib.js" "lib"
      = anchorLabel "lib" ++ " (" ++ cleanHref ("https:" ++ "//cdn.net/lib.js") ++ ")" ∧
    base_url ("http" ++ "://" ++ "example.org" ++ "/" ++ "p")
      = "http" ++ "://" ++ "example.org" ∧
    cleanHref ("https://" ++ "cdn.net/lib.js") = "cdn.net/lib.js" :=
  ⟨c9_link_rewriting.1 "http://x.org/a" "//cdn.net/lib.js" "lib" (by decide),
   c9_link_rewriting.2.2.1 "http" "example.org" "p" (by decide) (by decide),
   (c9_link_rewriting.2.2.2.1 "cdn.net/lib.js").1⟩

/-- C10 counterexample: the claim quantifies over every request providing
both `url` and `q`, but (a) with `url = ""` (provided, yet Python-falsy)
the handler takes the search branch and the authorization check runs —
here it fails with 403 instead of serving the direct URL — and (b) an
out-of-range `n` changes the outcome of a direct request (422 instead of
the fetched record), so `n` is not irrelevant. -/
theorem c10_counterexample :
    (searchRun
      { braveKey := none, geminiKey := none,
        fetchPage := fun _ => .page "T" "hi",
        braveSearch := fun _ _ _ => .ok none, distill := fun _ => .failure }
      [] ⟨some "x", some "", none, none⟩ none
      = (.error ⟨403, "Brave Search API key is needed.X-Brave-Search-API-Key header."⟩, [])) ∧
    (searchRun
      { braveKey := none, geminiKey := none,
        fetchPage := fun _ => .page "T" "hi",
        braveSearch := fun _ _ _ => .ok none, distill := fun _ => .failure }
      [] ⟨some "x", some "http://a", none, some 0⟩ none
      = (.error ⟨422, "Input should be less than or equal to 15 and greater than or equal to 1: n"⟩, [])) ∧
    (searchRun
      { braveKey := none, geminiKey := none,
        fetchPage := fun _ => .page "T" "hi",
        braveSearch := fun _ _ _ => .ok none, distill := fun _ => .failure }
      [] ⟨some "x", some "http://a", none, some 3⟩ none
      = (.ok ⟨[⟨"http://a", "T", "hi"⟩]⟩, [OutCall.page "http://a"])) :=
  ⟨rfl, rfl, rfl⟩

/-- C10 (amended): for every request whose parsed body carries a non-empty
`url`, the handler serves it with the direct pipeline alone: the response
equals the direct branch's, the outbound trace contains no Brave search
call, the credential header is irrelevant, a successful response has at
most one record, and any other request differing only in a (valid) `n`
yields the same outcome. -/
theorem c10_direct_only (env : Env) (sched : List Nat) (raw : RawRequest)
    (hdr : Option String) (body : SearchRequest) (u : String)
    (hp : parseRequest raw = .ok body) (hu : body.url = some u) (hne : u ≠ "") :
    searchRun env sched raw hdr = directPath env body u ∧
    (∀ c ∈ (searchRun env sched raw hdr).2, ∀ q n, c ≠ OutCall.brave q n) ∧
    (∀ hdr₂, searchRun env sched raw hdr₂ = searchRun env sched raw hdr) ∧
    (∀ resp, (searchRun env sched raw hdr).1 = .ok resp → resp.results.length ≤ 1) ∧
    (∀ raw₂ body₂ sched₂, raw₂.q = raw.q → raw₂.url = raw.url →
        raw₂.search_context = raw.search_context → parseRequest raw₂ = .ok body₂ →
        (searchRun env sched₂ raw₂ hdr).1 = (searchRun env sched raw hdr).1) := by
  have hdir := searchRun_direct env sched raw hdr body u hp hu hne
  obtain ⟨gq, gu, gc, -⟩ := parseRequest_fields raw body hp
  refine ⟨hdir, ?_, ?_, ?_, ?_⟩
  · rw [hdir, directPath_calls]
    intro c hc q n
    rcases fetch_url_content_calls env body u with hcs | hcs <;> rw [hcs] at hc
    · rw [List.mem_singleton] at hc
      subst hc
      simp
    · rcases List.mem_cons.mp hc with h1 | h1
      · subst h1
        simp
      · rw [List.mem_singleton] at h1
        subst h1
        simp
  · intro hdr₂
    rw [searchRun_direct env sched raw hdr₂ body u hp hu hne, hdir]
  · rw [hdir]
    exact directPath_ok_length env body u
  · intro raw₂ body₂ sched₂ e1 e2 e3 hp₂
    obtain ⟨f1, f2, f3, -⟩ := parseRequest_fields raw₂ body₂ hp₂
    have hq2 : body₂.q = body.q := by
      have : some body₂.q = some body.q := by rw [← f1, ← gq, e1]
      exact Option.some.inj this
    have hu2 : body₂.url = some u := by rw [f2, e2, ← gu, hu]
    have hc2 : body₂.search_context = body.search_context := by rw [f3, e3, gc]
    rw [searchRun_direct env sched₂ raw₂ hdr body₂ u hp₂ hu2 hne, hdir,
      directPath_body_congr env body₂ body u hq2 hc2]

/-- C10 amended-claim witness at a concrete direct request. -/
theorem c10_witness :
    searchRun
      { braveKey := none, geminiKey := none,
        fetchPage := fun _ => .page "T" "hi",
        braveSearch := fun _ _ _ => .ok none, distill := fun _ => .failure }
      [] ⟨some "x", some "http://a", none, none⟩ none
      = directPath
          { braveKey := none, geminiKey := none,
            fetchPage := fun _ => .page "T" "hi",
            braveSearch := fun _ _ _ => .ok none, distill := fun _ => .failure }
          ⟨"x", some "http://a", "", 3⟩ "http://a" :=
  (c10_direct_only
    { braveKey := none, geminiKey := none,
      fetchPage := fun _ => .page "T" "hi",
      braveSearch := fun _ _ _ => .ok none, distill := fun _ => .failure }
    [] ⟨some "x", some "http://a", none, none⟩ none ⟨"x", some "http://a", "", 3⟩
    "http://a" rfl rfl (by decide)).1

end WebSearch
